import Mathlib

/-!
Shallow embedding of the Python-Local-Load-Balancer repository and proofs
about the behaviour its specification describes.

Each definition transcribes one Python function from the repository sources;
the doc comment on a definition names the file and function it embeds.
`time.time()` / `datetime.now()` are modelled by an explicit `now : Nat`
parameter; durations are natural numbers.  A Python `raise` that propagates
to the caller is modelled by an explicit constructor of the result type.
-/

namespace LLB

/-! ## Circuit breaker — src/circuit_breaker/breaker.py -/

/-- `CircuitState` enum from breaker.py. -/
inductive CircuitState where
  | closed
  | opened
  | half_open
deriving DecidableEq, Repr

/-- Mutable state plus configuration of `CircuitBreaker` in breaker.py. -/
structure CircuitBreaker where
  failure_threshold : Nat
  timeout : Nat
  half_open_max_calls : Nat
  state : CircuitState
  failure_count : Nat
  success_count : Nat
  last_failure_time : Option Nat
  half_open_calls : Nat
deriving DecidableEq, Repr

/-- `CircuitBreaker.__init__(failure_threshold, timeout, half_open_max_calls)`. -/
def CircuitBreaker.init (failure_threshold timeout half_open_max_calls : Nat) :
    CircuitBreaker :=
  { failure_threshold := failure_threshold
    timeout := timeout
    half_open_max_calls := half_open_max_calls
    state := .closed
    failure_count := 0
    success_count := 0
    last_failure_time := none
    half_open_calls := 0 }

/-- `CircuitBreaker._should_attempt_reset`: `elapsed >= timeout` with
`elapsed = now - last_failure_time`; `True` when no failure was recorded. -/
def CircuitBreaker._should_attempt_reset (cb : CircuitBreaker) (now : Nat) : Bool :=
  match cb.last_failure_time with
  | none => true
  | some t => decide (cb.timeout ≤ now - t)

/-- `CircuitBreaker._transition_to_closed`. -/
def CircuitBreaker._transition_to_closed (cb : CircuitBreaker) : CircuitBreaker :=
  { cb with state := .closed, failure_count := 0, success_count := 0, half_open_calls := 0 }

/-- `CircuitBreaker._transition_to_open`. -/
def CircuitBreaker._transition_to_open (cb : CircuitBreaker) : CircuitBreaker :=
  { cb with state := .opened, success_count := 0, half_open_calls := 0 }

/-- `CircuitBreaker._transition_to_half_open`. -/
def CircuitBreaker._transition_to_half_open (cb : CircuitBreaker) : CircuitBreaker :=
  { cb with state := .half_open, failure_count := 0, success_count := 0, half_open_calls := 0 }

/-- `CircuitBreaker._on_success`. -/
def CircuitBreaker._on_success (cb : CircuitBreaker) : CircuitBreaker :=
  let cb := { cb with success_count := cb.success_count + 1 }
  if cb.state = .half_open then
    if cb.half_open_max_calls ≤ cb.success_count then cb._transition_to_closed else cb
  else cb

/-- `CircuitBreaker._on_failure`. -/
def CircuitBreaker._on_failure (cb : CircuitBreaker) (now : Nat) : CircuitBreaker :=
  let cb := { cb with failure_count := cb.failure_count + 1, last_failure_time := some now }
  if cb.state = .half_open then
    cb._transition_to_open
  else if cb.state = .closed then
    if cb.failure_threshold ≤ cb.failure_count then cb._transition_to_open else cb
  else cb

/-- How one `CircuitBreaker.call` ends.  The `raised*` constructors model a
Python `raise` propagating to the caller (`raisedFuncError` is the wrapped
function's own exception re-raised after `_on_failure`); `returned` models a
normal return of the wrapped function's result. -/
inductive CallResult where
  | raisedCircuitOpen
  | raisedHalfOpenLimit
  | raisedFuncError
  | returned
deriving DecidableEq, Repr

/-- Whether the call ended by an exception propagating to the caller. -/
def CallResult.isException : CallResult → Bool
  | .returned => false
  | _ => true

/-- One step of `CircuitBreaker.call`: the call result, whether the wrapped
function was actually executed, and the breaker afterwards. -/
structure CallStep where
  result : CallResult
  invoked : Bool
  breaker : CircuitBreaker
deriving DecidableEq, Repr

/-- Second half of `CircuitBreaker.call`: the HALF_OPEN call-limit check and
the `try: func() ...` block, for a breaker that passed the OPEN check.  The
wrapped function's outcome is the `success` argument. -/
def CircuitBreaker.callFromAdmitted (cb : CircuitBreaker) (now : Nat) (success : Bool) :
    CallStep :=
  if cb.state = .half_open ∧ cb.half_open_max_calls ≤ cb.half_open_calls then
    ⟨.raisedHalfOpenLimit, false, cb⟩
  else
    let cb := if cb.state = .half_open then
        { cb with half_open_calls := cb.half_open_calls + 1 }
      else cb
    if success then ⟨.returned, true, cb._on_success⟩
    else ⟨.raisedFuncError, true, cb._on_failure now⟩

/-- `CircuitBreaker.call(func)` at time `now` for a wrapped function whose
outcome is `success` (`False` = it raises). -/
def CircuitBreaker.call (cb : CircuitBreaker) (now : Nat) (success : Bool) : CallStep :=
  if cb.state = .opened then
    if cb._should_attempt_reset now then
      (cb._transition_to_half_open).callFromAdmitted now success
    else
      ⟨.raisedCircuitOpen, false, cb⟩
  else
    cb.callFromAdmitted now success

/-- Run a sequence of calls through the breaker; each entry is the call's
time and the wrapped function's outcome. -/
def CircuitBreaker.run (cb : CircuitBreaker) : List (Nat × Bool) → CircuitBreaker
  | [] => cb
  | (t, s) :: rest => ((cb.call t s).breaker).run rest

/-- Run `n` successful calls, all at time `now`. -/
def CircuitBreaker.runSuccesses (cb : CircuitBreaker) (now : Nat) : Nat → CircuitBreaker
  | 0 => cb
  | n + 1 => ((cb.call now true).breaker).runSuccesses now n

/-- Failures recorded in a call sequence (calls whose wrapped function fails). -/
def countFailures (ops : List (Nat × Bool)) : Nat :=
  ops.countP (fun p => !p.2)

/-! ## Service instances — src/services/service_instance.py -/

/-- `HealthStatus` enum from service_instance.py. -/
inductive HealthStatus where
  | healthy
  | unhealthy
  | degraded
  | unknown
deriving DecidableEq, Repr

/-- `ServiceInstance` from service_instance.py.  `active_connections` is an
integer (Python ints are signed), so that its non-negativity is a property
of the operations rather than of the type.  `total_response_time` (a Python
float accumulated by addition only) is modelled as a natural number. -/
structure ServiceInstance where
  name : String
  url : String
  weight : Nat
  health_status : HealthStatus
  last_health_check : Option Nat
  consecutive_failures : Nat
  active_connections : Int
  total_requests : Nat
  successful_requests : Nat
  failed_requests : Nat
  total_response_time : Nat
  created_at : Nat
  last_request_at : Option Nat
deriving DecidableEq, Repr

/-- `ServiceInstance.__init__(name, url, weight)` at creation time `now`. -/
def ServiceInstance.init (name url : String) (weight : Nat) (now : Nat) : ServiceInstance :=
  { name := name
    url := url
    weight := weight
    health_status := .unknown
    last_health_check := none
    consecutive_failures := 0
    active_connections := 0
    total_requests := 0
    successful_requests := 0
    failed_requests := 0
    total_response_time := 0
    created_at := now
    last_request_at := none }

/-- `ServiceInstance.mark_healthy`. -/
def ServiceInstance.mark_healthy (i : ServiceInstance) (now : Nat) : ServiceInstance :=
  { i with health_status := .healthy, consecutive_failures := 0,
           last_health_check := some now }

/-- `ServiceInstance.mark_unhealthy`. -/
def ServiceInstance.mark_unhealthy (i : ServiceInstance) (now : Nat) : ServiceInstance :=
  { i with health_status := .unhealthy,
           consecutive_failures := i.consecutive_failures + 1,
           last_health_check := some now }

/-- `ServiceInstance.mark_degraded`. -/
def ServiceInstance.mark_degraded (i : ServiceInstance) (now : Nat) : ServiceInstance :=
  { i with health_status := .degraded, last_health_check := some now }

/-- `ServiceInstance.is_healthy`. -/
def ServiceInstance.is_healthy (i : ServiceInstance) : Bool :=
  decide (i.health_status = .healthy)

/-- `ServiceInstance.increment_connections`. -/
def ServiceInstance.increment_connections (i : ServiceInstance) : ServiceInstance :=
  { i with active_connections := i.active_connections + 1 }

/-- `ServiceInstance.decrement_connections`: `max(0, active_connections - 1)`. -/
def ServiceInstance.decrement_connections (i : ServiceInstance) : ServiceInstance :=
  { i with active_connections := max 0 (i.active_connections - 1) }

/-- `ServiceInstance.record_request(success, response_time)` at time `now`. -/
def ServiceInstance.record_request (i : ServiceInstance) (success : Bool)
    (response_time : Nat) (now : Nat) : ServiceInstance :=
  { i with total_requests := i.total_requests + 1
           last_request_at := some now
           successful_requests := if success then i.successful_requests + 1
                                  else i.successful_requests
           failed_requests := if success then i.failed_requests
                              else i.failed_requests + 1
           total_response_time := i.total_response_time + response_time }

/-! ## Selection algorithms — src/load_balancer/algorithms.py -/

/-- `RoundRobinAlgorithm`: just the `current_index` cursor inherited from
`LoadBalancingAlgorithm.__init__` (initially 0). -/
structure RoundRobinAlgorithm where
  current_index : Nat
deriving DecidableEq, Repr

/-- `RoundRobinAlgorithm.select_instance`: `None` on an empty list, else
`instances[current_index % len(instances)]`, then `current_index += 1`.
Polymorphic in the element type; the balancer instantiates it with
`ServiceInstance`. -/
def RoundRobinAlgorithm.select_instance (s : RoundRobinAlgorithm) (instances : List α) :
    Option α × RoundRobinAlgorithm :=
  if instances.isEmpty then (none, s)
  else (instances[s.current_index % instances.length]?, ⟨s.current_index + 1⟩)

/-- The results of `n` consecutive `select_instance` calls on a stable list. -/
def RoundRobinAlgorithm.selections (s : RoundRobinAlgorithm) (instances : List α) :
    Nat → List (Option α)
  | 0 => []
  | n + 1 =>
    let p := s.select_instance instances
    p.1 :: p.2.selections instances n

/-- `WeightedRoundRobinAlgorithm`: cursor plus the cached weighted expansion
and the last candidate list seen (`None` initially). -/
structure WeightedRoundRobinAlgorithm where
  current_index : Nat
  weighted_instances : List ServiceInstance
  last_instances : Option (List ServiceInstance)
deriving DecidableEq, Repr

/-- `WeightedRoundRobinAlgorithm.__init__`. -/
def WeightedRoundRobinAlgorithm.init : WeightedRoundRobinAlgorithm :=
  { current_index := 0, weighted_instances := [], last_instances := none }

/-- `WeightedRoundRobinAlgorithm._build_weighted_list`: each instance is
replicated `weight` times. -/
def WeightedRoundRobinAlgorithm._build_weighted_list
    (instances : List ServiceInstance) : List ServiceInstance :=
  (instances.map (fun i => List.replicate i.weight i)).flatten

/-- `WeightedRoundRobinAlgorithm.select_instance`: rebuild the weighted list
when the candidate list differs from the last one seen; fall back to
`instances[0]` when the weighted list is empty; otherwise round-robin over
the weighted list. -/
def WeightedRoundRobinAlgorithm.select_instance (s : WeightedRoundRobinAlgorithm)
    (instances : List ServiceInstance) :
    Option ServiceInstance × WeightedRoundRobinAlgorithm :=
  if instances.isEmpty then (none, s)
  else
    let s := if some instances ≠ s.last_instances then
        { s with weighted_instances := _build_weighted_list instances,
                 last_instances := some instances }
      else s
    if s.weighted_instances.isEmpty then (instances[0]?, s)
    else
      (s.weighted_instances[s.current_index % s.weighted_instances.length]?,
       { s with current_index := s.current_index + 1 })

/-- The results of `n` consecutive weighted selections on a stable list. -/
def WeightedRoundRobinAlgorithm.selections (s : WeightedRoundRobinAlgorithm)
    (instances : List ServiceInstance) : Nat → List (Option ServiceInstance)
  | 0 => []
  | n + 1 =>
    let p := s.select_instance instances
    p.1 :: p.2.selections instances n

/-! ## Load balancer — src/load_balancer/balancer.py -/

/-- Outcome of the external HTTP request made inside `forward_request`
(the `requests` library is the excluded transport collaborator). -/
inductive DispatchOutcome where
  | ok (status : Nat) (latency : Nat)
  | timedOut
  | transportError
deriving DecidableEq, Repr

/-- The `(body, statusCode)` value returned by `forward_request`; every
branch of the Python function returns such a tuple (nothing is raised for
"no instance", timeout or transport failure). -/
inductive ForwardBody where
  | errorNoHealthyInstance
  | json (status : Nat)
  | errorTimeout (service : String)
  | errorTransport (service : String)
deriving DecidableEq, Repr

/-- `LoadBalancer` with its default `round_robin` algorithm (balancer.py
line 22: `algorithm='round_robin'`). -/
structure LoadBalancer where
  instances : List ServiceInstance
  algorithm : RoundRobinAlgorithm
deriving DecidableEq, Repr

/-- `LoadBalancer.get_healthy_instances`. -/
def LoadBalancer.get_healthy_instances (lb : LoadBalancer) : List ServiceInstance :=
  lb.instances.filter (fun i => i.is_healthy)

/-- `LoadBalancer.get_next_instance`: `None` when no instance is healthy,
else delegate to the algorithm (whose cursor advances). -/
def LoadBalancer.get_next_instance (lb : LoadBalancer) :
    Option ServiceInstance × LoadBalancer :=
  let healthy := lb.get_healthy_instances
  if healthy.isEmpty then (none, lb)
  else
    let p := lb.algorithm.select_instance healthy
    (p.1, { lb with algorithm := p.2 })

/-- The effect of `forward_request` (balancer.py lines 104-145) on the
selected instance: increment `active_connections`, record the request per
branch (success iff `status_code < 400`; a timeout records the timeout as
the response time; a transport error records 0), then decrement
`active_connections` — the decrement runs on every branch. -/
def ServiceInstance.dispatchSteps (inst : ServiceInstance) (o : DispatchOutcome)
    (now timeout : Nat) : ServiceInstance :=
  let inst := inst.increment_connections
  match o with
  | .ok status latency =>
      ((inst.record_request (decide (status < 400)) latency now).decrement_connections)
  | .timedOut => ((inst.record_request false timeout now).decrement_connections)
  | .transportError => ((inst.record_request false 0 now).decrement_connections)

/-- `LoadBalancer.forward_request`: select an instance (returning the
`503` error tuple when none is healthy), apply the per-instance dispatch
steps, and return the branch's `(body, statusCode)` tuple.  Python mutates
the selected instance object in place; here the pool replaces its (unique)
occurrence with the updated value. -/
def LoadBalancer.forward_request (lb : LoadBalancer) (o : DispatchOutcome)
    (now timeout : Nat) : (ForwardBody × Nat) × LoadBalancer :=
  match lb.get_next_instance with
  | (none, lb') => ((.errorNoHealthyInstance, 503), lb')
  | (some inst, lb') =>
    let newInst := inst.dispatchSteps o now timeout
    let lb'' := { lb' with instances := lb'.instances.replace inst newInst }
    match o with
    | .ok status _ => ((.json status, status), lb'')
    | .timedOut => ((.errorTimeout inst.name, 504), lb'')
    | .transportError => ((.errorTransport inst.name, 502), lb'')

/-- An operation touching one instance's connection count: a bare
increment, a bare decrement, or a full dispatch through `forward_request`
with the given transport outcome. -/
inductive ConnOp where
  | increment
  | decrement
  | dispatch (o : DispatchOutcome) (now : Nat) (timeout : Nat)
deriving DecidableEq, Repr

/-- Apply a sequence of connection operations to an instance. -/
def ServiceInstance.runConnOps (inst : ServiceInstance) : List ConnOp → ServiceInstance
  | [] => inst
  | op :: rest =>
    (match op with
     | .increment => inst.increment_connections
     | .decrement => inst.decrement_connections
     | .dispatch o now tmo => inst.dispatchSteps o now tmo).runConnOps rest

/-! ## Health checker — src/health/health_checker.py -/

/-- `HealthChecker` configuration. -/
structure HealthChecker where
  check_interval : Nat
  timeout : Nat
  unhealthy_threshold : Nat
deriving DecidableEq, Repr

/-- Outcome of the probe `requests.get(url + "/health", timeout=...)`. -/
inductive ProbeResult where
  | ok (status : Nat)
  | timedOut
  | failed
deriving DecidableEq, Repr

/-- Whether a probe outcome counts as success (`status_code == 200`). -/
def ProbeResult.isSuccess : ProbeResult → Bool
  | .ok status => status == 200
  | _ => false

/-- The probe part of `check_instance_health` (lines 75-97): status 200 →
`mark_healthy`; any other status, a timeout, or a request exception →
`mark_unhealthy`. -/
def probeStep (inst : ServiceInstance) (probe : ProbeResult) (now : Nat) : ServiceInstance :=
  match probe with
  | .ok status => if status = 200 then inst.mark_healthy now else inst.mark_unhealthy now
  | .timedOut => inst.mark_unhealthy now
  | .failed => inst.mark_unhealthy now

/-- The condition of the threshold-escalation branch at the end of
`check_instance_health` (lines 100-101), evaluated on the post-probe
instance: it would call `mark_unhealthy` a second time. -/
def escalationTriggered (hc : HealthChecker) (inst : ServiceInstance) : Bool :=
  decide (hc.unhealthy_threshold ≤ inst.consecutive_failures) &&
    decide (inst.health_status ≠ .unhealthy)

/-- `HealthChecker.check_instance_health`: the probe step followed by the
threshold-escalation branch. -/
def HealthChecker.check_instance_health (hc : HealthChecker) (inst : ServiceInstance)
    (probe : ProbeResult) (now : Nat) : ServiceInstance :=
  let inst := probeStep inst probe now
  if hc.unhealthy_threshold ≤ inst.consecutive_failures then
    if inst.health_status ≠ .unhealthy then inst.mark_unhealthy now else inst
  else inst

/-! ## Failover manager — src/failover/failover_manager.py -/

/-- Kind of a failover-history entry. -/
inductive EventType where
  | failover
  | failback
deriving DecidableEq, Repr

/-- One entry of `failover_history` (the dict appended by
`_perform_failover` / `_perform_failback`).  Python's `'from'`/`'to'` keys
are `from_name`/`to_name` here (`from` is a Lean keyword). -/
structure FailoverEvent where
  timestamp : Nat
  type : EventType
  from_name : String
  to_name : String
  reason : String
deriving DecidableEq, Repr

/-- `FailoverManager` state: the primary registry and backup mapping are
name-keyed insertion-ordered dicts, modelled as association lists; the
instance values are the health snapshots the checks read. -/
structure FailoverManager where
  enable_failback : Bool
  primary_instances : List (String × ServiceInstance)
  backup_instances : List (String × ServiceInstance)
  failover_history : List FailoverEvent
deriving DecidableEq, Repr

/-- The event `_perform_failover` appends (lines 101-107). -/
def failoverEvent (primary backup : ServiceInstance) (now : Nat) : FailoverEvent :=
  { timestamp := now
    type := .failover
    from_name := primary.name
    to_name := backup.name
    reason := "primary_unhealthy" }

/-- The body of the `check_and_failover` loop for one registered primary
`p`: an event exactly when `p` is not healthy and its registered backup is
healthy (a primary with no backup, or an unhealthy backup, yields none). -/
def qualifyingEvent (backups : List (String × ServiceInstance)) (now : Nat)
    (p : String × ServiceInstance) : Option FailoverEvent :=
  if p.2.is_healthy then none
  else
    match backups.lookup p.1 with
    | some backup => if backup.is_healthy then some (failoverEvent p.2 backup now) else none
    | none => none

/-- The `check_and_failover` loop over the whole registry, in registry
order. -/
def failoverEvents (primaries backups : List (String × ServiceInstance))
    (now : Nat) : List FailoverEvent :=
  primaries.filterMap (qualifyingEvent backups now)

/-- Number of Failover events attributed to the primary named `name`. -/
def failoverEventCount (name : String) (m : FailoverManager) : Nat :=
  m.failover_history.countP (fun e => decide (e.type = .failover ∧ e.from_name = name))

/-- `FailoverManager.check_and_failover`: appends, via `_perform_failover`,
one event per qualifying primary to `failover_history`; nothing else in the
manager changes. -/
def FailoverManager.check_and_failover (m : FailoverManager) (now : Nat) : FailoverManager :=
  { m with failover_history :=
      m.failover_history ++ failoverEvents m.primary_instances m.backup_instances now }

/-- Concrete breaker state used to exercise the theorems: the state reached
after three failed calls at times 100, 101, 102 through
`CircuitBreaker.init 3 30 3`. -/
def cbAfter3 : CircuitBreaker :=
  { failure_threshold := 3, timeout := 30, half_open_max_calls := 3,
    state := .opened, failure_count := 3, success_count := 0,
    last_failure_time := some 102, half_open_calls := 0 }

/-- A HALF_OPEN breaker whose call budget is exhausted
(`half_open_calls = half_open_max_calls`). -/
def cbHalfOpenFull : CircuitBreaker :=
  { failure_threshold := 3, timeout := 30, half_open_max_calls := 3,
    state := .half_open, failure_count := 0, success_count := 0,
    last_failure_time := some 102, half_open_calls := 3 }

/-- A pool whose only instance is still in the initial UNKNOWN state, so
the healthy subset is empty. -/
def lbNoHealthy : LoadBalancer :=
  { instances := [ServiceInstance.init "service-1" "http://localhost:5001" 1 0],
    algorithm := ⟨0⟩ }

/-- Weight-3 healthy instance for the weighted round-robin scenario. -/
def wrrA : ServiceInstance :=
  (ServiceInstance.init "service-1" "http://localhost:5001" 3 0).mark_healthy 0

/-- Weight-1 healthy instance for the weighted round-robin scenario. -/
def wrrB : ServiceInstance :=
  (ServiceInstance.init "service-2" "http://localhost:5002" 1 0).mark_healthy 0

/-- A health checker with the constructor's default configuration
(`check_interval=5`, `timeout=2`, `unhealthy_threshold=3`). -/
def hcDefault : HealthChecker :=
  { check_interval := 5, timeout := 2, unhealthy_threshold := 3 }

/-- A freshly added instance (health UNKNOWN, all counters zero). -/
def instFresh : ServiceInstance :=
  ServiceInstance.init "service-1" "http://localhost:5001" 1 0

/-- A failover manager with one unhealthy primary whose registered backup
is healthy. -/
def fmScenario : FailoverManager :=
  { enable_failback := true
    primary_instances :=
      [("primary", (ServiceInstance.init "primary" "http://localhost:5001" 1 0).mark_unhealthy 5)]
    backup_instances :=
      [("primary", (ServiceInstance.init "backup" "http://localhost:5002" 1 0).mark_healthy 5)]
    failover_history := [] }

/-! ## Lemmas about one `CircuitBreaker.call` -/

theorem call_closed_success (cb : CircuitBreaker) (h : cb.state = .closed) (now : Nat) :
    cb.call now true = ⟨.returned, true, { cb with success_count := cb.success_count + 1 }⟩ := by
  simp [CircuitBreaker.call, CircuitBreaker.callFromAdmitted, CircuitBreaker._on_success, h]

theorem call_closed_failure_stay (cb : CircuitBreaker) (h : cb.state = .closed)
    (hlt : cb.failure_count + 1 < cb.failure_threshold) (now : Nat) :
    cb.call now false =
      ⟨.raisedFuncError, true,
       { cb with failure_count := cb.failure_count + 1, last_failure_time := some now }⟩ := by
  simp [CircuitBreaker.call, CircuitBreaker.callFromAdmitted, CircuitBreaker._on_failure, h,
    Nat.not_le.mpr hlt]

theorem call_closed_failure_tripped (cb : CircuitBreaker) (h : cb.state = .closed)
    (hth : cb.failure_threshold ≤ cb.failure_count + 1) (now : Nat) :
    cb.call now false =
      ⟨.raisedFuncError, true,
       { cb with state := .opened, failure_count := cb.failure_count + 1,
                 success_count := 0, last_failure_time := some now,
                 half_open_calls := 0 }⟩ := by
  simp [CircuitBreaker.call, CircuitBreaker.callFromAdmitted, CircuitBreaker._on_failure,
    CircuitBreaker._transition_to_open, h, hth]

theorem call_halfOpen_success_stay (cb : CircuitBreaker) (h : cb.state = .half_open)
    (hlim : cb.half_open_calls < cb.half_open_max_calls)
    (hsc : cb.success_count + 1 < cb.half_open_max_calls) (now : Nat) :
    cb.call now true =
      ⟨.returned, true,
       { cb with success_count := cb.success_count + 1,
                 half_open_calls := cb.half_open_calls + 1 }⟩ := by
  simp [CircuitBreaker.call, CircuitBreaker.callFromAdmitted, CircuitBreaker._on_success, h,
    Nat.not_le.mpr hlim, Nat.not_le.mpr hsc]

theorem call_halfOpen_success_close (cb : CircuitBreaker) (h : cb.state = .half_open)
    (hlim : cb.half_open_calls < cb.half_open_max_calls)
    (hsc : cb.half_open_max_calls ≤ cb.success_count + 1) (now : Nat) :
    cb.call now true =
      ⟨.returned, true,
       { cb with state := .closed, failure_count := 0, success_count := 0,
                 half_open_calls := 0 }⟩ := by
  simp [CircuitBreaker.call, CircuitBreaker.callFromAdmitted, CircuitBreaker._on_success,
    CircuitBreaker._transition_to_closed, h, Nat.not_le.mpr hlim, hsc]

/-- In HALF_OPEN with `half_open_calls = success_count` and `n` successes
still needed to reach `half_open_max_calls`, `n` consecutive successful
calls close the circuit and reset all three counters. -/
theorem runSuccesses_halfOpen (n : Nat) : ∀ (cb : CircuitBreaker) (now : Nat),
    cb.state = .half_open → cb.half_open_calls = cb.success_count →
    cb.success_count + n = cb.half_open_max_calls → 1 ≤ n →
    cb.runSuccesses now n =
      { cb with state := .closed, failure_count := 0, success_count := 0,
                half_open_calls := 0 } := by
  induction n with
  | zero => intro cb now _ _ _ hn; omega
  | succ m ih =>
    intro cb now hst hoc hsum _
    rcases Nat.eq_zero_or_pos m with hm | hm
    · subst hm
      rw [CircuitBreaker.runSuccesses,
        call_halfOpen_success_close cb hst (by omega) (by omega) now,
        CircuitBreaker.runSuccesses]
    · rw [CircuitBreaker.runSuccesses,
        call_halfOpen_success_stay cb hst (by omega) (by omega) now]
      rw [ih _ now (by simp [hst]) (by simp [hoc]) (by simp; omega) hm]

/-- While the cumulative failure count stays below the threshold, a CLOSED
breaker stays CLOSED, its `failure_count` is exactly the number of failed
calls so far (successes never reset it), and its configuration persists. -/
theorem run_closed (ops : List (Nat × Bool)) : ∀ (cb : CircuitBreaker),
    cb.state = .closed → cb.failure_count + countFailures ops < cb.failure_threshold →
    (cb.run ops).state = .closed ∧
    (cb.run ops).failure_count = cb.failure_count + countFailures ops ∧
    (cb.run ops).failure_threshold = cb.failure_threshold := by
  induction ops with
  | nil => intro cb h _; simp [CircuitBreaker.run, countFailures, h]
  | cons p rest ih =>
    intro cb h hlt
    obtain ⟨t, s⟩ := p
    cases s with
    | true =>
      rw [CircuitBreaker.run, call_closed_success cb h t]
      have hrest : countFailures ((t, true) :: rest) = countFailures rest := by
        simp [countFailures]
      rw [hrest] at hlt
      have := ih { cb with success_count := cb.success_count + 1 } (by simp [h]) (by simpa)
      simpa [hrest] using this
    | false =>
      have hcount : countFailures ((t, false) :: rest) = countFailures rest + 1 := by
        simp [countFailures, Nat.add_comm]
      rw [hcount] at hlt
      rw [CircuitBreaker.run, call_closed_failure_stay cb h (by omega) t]
      have := ih { cb with failure_count := cb.failure_count + 1,
                           last_failure_time := some t } (by simp [h]) (by simp; omega)
      rw [hcount]
      refine ⟨this.1, ?_, ?_⟩
      · rw [this.2.1]; simp; omega
      · simpa using this.2.2

/-- Three consecutive failed calls through a breaker built with
`failure_threshold=3` leave it OPEN with the last failure time recorded. -/
theorem run_three_failures (tmo hmax t1 t2 t3 : Nat) :
    (CircuitBreaker.init 3 tmo hmax).run [(t1, false), (t2, false), (t3, false)] =
      { failure_threshold := 3, timeout := tmo, half_open_max_calls := hmax,
        state := .opened, failure_count := 3, success_count := 0,
        last_failure_time := some t3, half_open_calls := 0 } := by
  rw [CircuitBreaker.run, call_closed_failure_stay _ rfl (by simp [CircuitBreaker.init]) t1]
  rw [CircuitBreaker.run, call_closed_failure_stay _ rfl (by simp [CircuitBreaker.init]) t2]
  rw [CircuitBreaker.run, call_closed_failure_tripped _ rfl (by simp [CircuitBreaker.init]) t3]
  rfl

/-- C1: for a breaker constructed with `failure_threshold=3`, 3 consecutive
failed calls transition CLOSED→OPEN; a further call before `timeout`
seconds have elapsed since the last failure is rejected with the
circuit-open rejection and the wrapped function is never invoked; a call
after `timeout` seconds is admitted and first transitions the breaker to
HALF_OPEN; and `half_open_max_calls` consecutive successful calls in
HALF_OPEN transition HALF_OPEN→CLOSED with `failure_count`,
`success_count` and `half_open_calls` all reset to zero. -/
theorem C1_circuit_breaker_lifecycle (tmo hmax t1 t2 t3 t4 t5 now : Nat) (s : Bool)
    (hmax1 : 1 ≤ hmax) (cb3 : CircuitBreaker)
    (hcb3 : cb3 = (CircuitBreaker.init 3 tmo hmax).run [(t1, false), (t2, false), (t3, false)]) :
    cb3.state = .opened ∧
    (t4 - t3 < tmo →
      (cb3.call t4 s).result = .raisedCircuitOpen ∧ (cb3.call t4 s).invoked = false ∧
      (cb3.call t4 s).breaker = cb3) ∧
    (tmo ≤ t5 - t3 →
      cb3.call t5 s = (cb3._transition_to_half_open).callFromAdmitted t5 s ∧
      (cb3._transition_to_half_open).state = .half_open ∧
      (cb3.call t5 s).invoked = true) ∧
    (tmo ≤ t5 - t3 →
      ((cb3.call t5 true).breaker).runSuccesses now (hmax - 1) =
        { cb3 with state := .closed, failure_count := 0, success_count := 0,
                   half_open_calls := 0 }) := by
  rw [run_three_failures] at hcb3
  subst hcb3
  refine ⟨rfl, ?_, ?_, ?_⟩
  · intro h4
    simp [CircuitBreaker.call, CircuitBreaker._should_attempt_reset, Nat.not_le.mpr h4]
  · intro h5
    have hstep : ∀ s' : Bool,
        CircuitBreaker.call
          { failure_threshold := 3, timeout := tmo, half_open_max_calls := hmax,
            state := .opened, failure_count := 3, success_count := 0,
            last_failure_time := some t3, half_open_calls := 0 } t5 s' =
        CircuitBreaker.callFromAdmitted
          { failure_threshold := 3, timeout := tmo, half_open_max_calls := hmax,
            state := .half_open, failure_count := 0, success_count := 0,
            last_failure_time := some t3, half_open_calls := 0 } t5 s' := by
      intro s'
      simp [CircuitBreaker.call, CircuitBreaker._should_attempt_reset, h5,
        CircuitBreaker._transition_to_half_open]
    refine ⟨hstep s, rfl, ?_⟩
    rw [hstep s]
    cases s <;>
      simp [CircuitBreaker.callFromAdmitted, Nat.not_le.mpr (by omega : (0:Nat) < hmax)]
  · intro h5
    have hstep :
        CircuitBreaker.call
          { failure_threshold := 3, timeout := tmo, half_open_max_calls := hmax,
            state := .opened, failure_count := 3, success_count := 0,
            last_failure_time := some t3, half_open_calls := 0 } t5 true =
        CircuitBreaker.call
          { failure_threshold := 3, timeout := tmo, half_open_max_calls := hmax,
            state := .half_open, failure_count := 0, success_count := 0,
            last_failure_time := some t3, half_open_calls := 0 } t5 true := by
      simp [CircuitBreaker.call, CircuitBreaker._should_attempt_reset, h5,
        CircuitBreaker._transition_to_half_open]
    rw [hstep]
    rcases eq_or_lt_of_le hmax1 with h1 | h2
    · rw [call_halfOpen_success_close _ rfl (by simp; omega) (by simp; omega) t5]
      rw [← h1]
      rfl
    · rw [call_halfOpen_success_stay _ rfl (by simp; omega) (by simp; omega) t5]
      rw [runSuccesses_halfOpen (hmax - 1) _ now rfl (by simp) (by simp; omega) (by omega)]

/-- Witness for C1 at `timeout=30`, `half_open_max_calls=3`, failures at
times 100-102, a rejected call at 110 and an admitted one at 140. -/
theorem C1_circuit_breaker_lifecycle_witness :
    ((1 : Nat) ≤ 3 ∧
     cbAfter3 = (CircuitBreaker.init 3 30 3).run [(100, false), (101, false), (102, false)]) ∧
    (cbAfter3.state = .opened ∧
     (110 - 102 < 30 →
       (cbAfter3.call 110 true).result = .raisedCircuitOpen ∧
       (cbAfter3.call 110 true).invoked = false ∧
       (cbAfter3.call 110 true).breaker = cbAfter3) ∧
     (30 ≤ 140 - 102 →
       cbAfter3.call 140 true = (cbAfter3._transition_to_half_open).callFromAdmitted 140 true ∧
       (cbAfter3._transition_to_half_open).state = .half_open ∧
       (cbAfter3.call 140 true).invoked = true) ∧
     (30 ≤ 140 - 102 →
       ((cbAfter3.call 140 true).breaker).runSuccesses 141 (3 - 1) =
         { cbAfter3 with state := .closed, failure_count := 0, success_count := 0,
                         half_open_calls := 0 })) :=
  ⟨⟨by decide, by decide⟩,
   C1_circuit_breaker_lifecycle 30 3 100 101 102 110 140 141 true (by decide) cbAfter3
     (by decide)⟩

/-- C8: in CLOSED, a successful call does not reset `failure_count`; for
any interleaving of successes and failures the counter equals the
cumulative number of failures since the last transition to CLOSED, and the
failure that brings it to `failure_threshold` opens the circuit. -/
theorem C8_failures_accumulate_across_successes (cb : CircuitBreaker)
    (h : cb.state = .closed) :
    (∀ now, (cb.call now true).breaker.failure_count = cb.failure_count ∧
            (cb.call now true).breaker.state = .closed) ∧
    (∀ ops, cb.failure_count + countFailures ops < cb.failure_threshold →
       (cb.run ops).state = .closed ∧
       (cb.run ops).failure_count = cb.failure_count + countFailures ops) ∧
    (∀ ops t, cb.failure_count + countFailures ops + 1 = cb.failure_threshold →
       ((cb.run ops).call t false).breaker.state = .opened) := by
  refine ⟨?_, ?_, ?_⟩
  · intro now
    rw [call_closed_success cb h now]
    exact ⟨rfl, h⟩
  · intro ops hlt
    exact ⟨(run_closed ops cb h hlt).1, (run_closed ops cb h hlt).2.1⟩
  · intro ops t hth
    have hrc := run_closed ops cb h (by omega)
    rw [call_closed_failure_tripped _ hrc.1 (by rw [hrc.2.1, hrc.2.2]; omega) t]

/-- Witness for C8: two failures interleaved with a success leave the
count at 2, and a third failure opens a threshold-3 breaker. -/
theorem C8_failures_accumulate_across_successes_witness :
    (CircuitBreaker.init 3 30 3).state = .closed ∧
    ((CircuitBreaker.init 3 30 3).call 0 true).breaker.failure_count =
      (CircuitBreaker.init 3 30 3).failure_count ∧
    (((CircuitBreaker.init 3 30 3).run [(0, false), (1, true), (2, false)]).call 3
        false).breaker.state = .opened :=
  ⟨by decide,
   ((C8_failures_accumulate_across_successes (CircuitBreaker.init 3 30 3) (by decide)).1 0).1,
   (C8_failures_accumulate_across_successes (CircuitBreaker.init 3 30 3) (by decide)).2.2
     [(0, false), (1, true), (2, false)] 3 (by decide)⟩

/-- C2 counterexample: a circuit-open rejection is raised as an exception
(the `raise` at breaker.py line 70), not returned as a result value — at
the concrete OPEN breaker `cbAfter3` called at time 110 (8 seconds after
the last failure, before the 30-second timeout). -/
theorem C2_counterexample_rejection_raises :
    cbAfter3.state = .opened ∧ cbAfter3._should_attempt_reset 110 = false ∧
    (cbAfter3.call 110 true).result = .raisedCircuitOpen ∧
    (cbAfter3.call 110 true).result.isException = true ∧
    (cbAfter3.call 110 true).invoked = false := by decide

/-- C2 amended: selection returns "no healthy instance" as a typed result
value (`503` tuple, nothing raised), but the circuit breaker's rejections
(OPEN before the timeout, and HALF_OPEN over the call limit) are raised as
exceptions to the caller; in both rejection cases the wrapped function is
never invoked. -/
theorem C2_amended_rejection_channels (cb : CircuitBreaker) (now : Nat) (s : Bool)
    (lb : LoadBalancer) (o : DispatchOutcome) (t n : Nat) :
    (cb.state = .opened → cb._should_attempt_reset now = false →
       (cb.call now s).result = .raisedCircuitOpen ∧
       (cb.call now s).result.isException = true ∧ (cb.call now s).invoked = false) ∧
    (cb.state = .half_open → cb.half_open_max_calls ≤ cb.half_open_calls →
       (cb.call now s).result = .raisedHalfOpenLimit ∧
       (cb.call now s).result.isException = true ∧ (cb.call now s).invoked = false) ∧
    (lb.get_healthy_instances = [] →
       (lb.forward_request o t n).1 = (.errorNoHealthyInstance, 503) ∧
       (lb.forward_request o t n).2 = lb) := by
  refine ⟨?_, ?_, ?_⟩
  · intro h1 h2
    simp [CircuitBreaker.call, h1, h2, CallResult.isException]
  · intro h1 h2
    simp [CircuitBreaker.call, CircuitBreaker.callFromAdmitted, h1, h2,
      CallResult.isException]
  · intro h
    simp [LoadBalancer.forward_request, LoadBalancer.get_next_instance, h]

/-- Witness for the amended C2 at `cbAfter3` (OPEN, before timeout), at
`cbHalfOpenFull` (HALF_OPEN, budget exhausted) and at the pool with no
healthy instance. -/
theorem C2_amended_rejection_channels_witness :
    (cbAfter3.state = .opened ∧ cbAfter3._should_attempt_reset 110 = false ∧
     (cbAfter3.call 110 true).result = .raisedCircuitOpen ∧
     (cbAfter3.call 110 true).invoked = false) ∧
    (cbHalfOpenFull.state = .half_open ∧
     cbHalfOpenFull.half_open_max_calls ≤ cbHalfOpenFull.half_open_calls ∧
     (cbHalfOpenFull.call 110 true).result = .raisedHalfOpenLimit ∧
     (cbHalfOpenFull.call 110 true).invoked = false) ∧
    (lbNoHealthy.get_healthy_instances = [] ∧
     (lbNoHealthy.forward_request .timedOut 0 5).1 = (.errorNoHealthyInstance, 503)) :=
  ⟨⟨by decide, by decide,
    ((C2_amended_rejection_channels cbAfter3 110 true lbNoHealthy .timedOut 0 5).1
        (by decide) (by decide)).1,
    ((C2_amended_rejection_channels cbAfter3 110 true lbNoHealthy .timedOut 0 5).1
        (by decide) (by decide)).2.2⟩,
   ⟨by decide, by decide,
    ((C2_amended_rejection_channels cbHalfOpenFull 110 true lbNoHealthy .timedOut 0 5).2.1
        (by decide) (by decide)).1,
    ((C2_amended_rejection_channels cbHalfOpenFull 110 true lbNoHealthy .timedOut 0 5).2.1
        (by decide) (by decide)).2.2⟩,
   ⟨by decide,
    ((C2_amended_rejection_channels cbAfter3 110 true lbNoHealthy .timedOut 0 5).2.2
        (by decide)).1⟩⟩

/-- C6: from a fresh weighted round-robin over the stable candidate list
`[wrrA, wrrB]` with weights `[3, 1]`, 12 consecutive selections return
`wrrA` exactly 9 times and `wrrB` exactly 3 times. -/
theorem C6_weighted_round_robin_distribution :
    (WeightedRoundRobinAlgorithm.init.selections [wrrA, wrrB] 12).count (some wrrA) = 9 ∧
    (WeightedRoundRobinAlgorithm.init.selections [wrrA, wrrB] 12).count (some wrrB) = 3 := by
  decide

/-- C5: `active_connections` stays non-negative under any sequence of
increments, decrements and dispatches (including dispatches ending in a
timeout or a transport error), from any state where it is non-negative —
in particular from the freshly constructed instance, and at every
intermediate state, since the starting state and the sequence are
arbitrary. -/
theorem C5_active_connections_nonneg (inst : ServiceInstance) (ops : List ConnOp)
    (h : 0 ≤ inst.active_connections) :
    0 ≤ (inst.runConnOps ops).active_connections := by
  induction ops generalizing inst with
  | nil => simpa [ServiceInstance.runConnOps] using h
  | cons op rest ih =>
    cases op with
    | increment =>
      simp only [ServiceInstance.runConnOps]
      exact ih _ (by simp [ServiceInstance.increment_connections]; omega)
    | decrement =>
      simp only [ServiceInstance.runConnOps]
      exact ih _ (by simp [ServiceInstance.decrement_connections])
    | dispatch o now tmo =>
      simp only [ServiceInstance.runConnOps]
      refine ih _ ?_
      cases o <;>
        simp [ServiceInstance.dispatchSteps, ServiceInstance.increment_connections,
          ServiceInstance.decrement_connections, ServiceInstance.record_request]

/-- Witness for C5: a fresh instance through a decrement-heavy sequence. -/
theorem C5_active_connections_nonneg_witness :
    (0 : Int) ≤ instFresh.active_connections ∧
    0 ≤ (instFresh.runConnOps
          [.decrement, .dispatch .timedOut 1 5, .increment, .decrement, .decrement,
           .dispatch (.ok 200 1) 2 5]).active_connections :=
  ⟨by decide,
   C5_active_connections_nonneg instFresh
     [.decrement, .dispatch .timedOut 1 5, .increment, .decrement, .decrement,
      .dispatch (.ok 200 1) 2 5] (by decide)⟩

/-- C7: with a positive unhealthy threshold (the constructor default is 3),
a probe that returns a non-200 status, times out or fails marks the
instance Unhealthy and increments `consecutive_failures` by one, while a
successful probe marks it Healthy and resets `consecutive_failures` to 0. -/
theorem C7_probe_drives_health (hc : HealthChecker) (inst : ServiceInstance)
    (probe : ProbeResult) (now : Nat) (hth : 1 ≤ hc.unhealthy_threshold) :
    (probe.isSuccess = true →
       (hc.check_instance_health inst probe now).health_status = .healthy ∧
       (hc.check_instance_health inst probe now).consecutive_failures = 0) ∧
    (probe.isSuccess = false →
       (hc.check_instance_health inst probe now).health_status = .unhealthy ∧
       (hc.check_instance_health inst probe now).consecutive_failures =
         inst.consecutive_failures + 1) := by
  have hnot : ¬ hc.unhealthy_threshold ≤ 0 := by omega
  cases probe with
  | ok status =>
    constructor
    · intro hs
      have h200 : status = 200 := by simpa [ProbeResult.isSuccess] using hs
      subst h200
      simp [HealthChecker.check_instance_health, probeStep, ServiceInstance.mark_healthy, hnot]
    · intro hs
      have h200 : ¬ status = 200 := by simpa [ProbeResult.isSuccess] using hs
      simp [HealthChecker.check_instance_health, probeStep, h200,
        ServiceInstance.mark_unhealthy]
  | timedOut =>
    refine ⟨by intro hs; simp [ProbeResult.isSuccess] at hs, ?_⟩
    intro _
    simp [HealthChecker.check_instance_health, probeStep, ServiceInstance.mark_unhealthy]
  | failed =>
    refine ⟨by intro hs; simp [ProbeResult.isSuccess] at hs, ?_⟩
    intro _
    simp [HealthChecker.check_instance_health, probeStep, ServiceInstance.mark_unhealthy]

/-- Witness for C7 at the default threshold: a 200 probe on a fresh
instance, and a 500 probe on the same instance. -/
theorem C7_probe_drives_health_witness :
    1 ≤ hcDefault.unhealthy_threshold ∧
    ((ProbeResult.ok 200).isSuccess = true ∧
     (hcDefault.check_instance_health instFresh (.ok 200) 7).health_status = .healthy ∧
     (hcDefault.check_instance_health instFresh (.ok 200) 7).consecutive_failures = 0) ∧
    ((ProbeResult.ok 500).isSuccess = false ∧
     (hcDefault.check_instance_health instFresh (.ok 500) 7).health_status = .unhealthy ∧
     (hcDefault.check_instance_health instFresh (.ok 500) 7).consecutive_failures =
       instFresh.consecutive_failures + 1) :=
  ⟨by decide,
   ⟨by decide,
    ((C7_probe_drives_health hcDefault instFresh (.ok 200) 7 (by decide)).1 (by decide)).1,
    ((C7_probe_drives_health hcDefault instFresh (.ok 200) 7 (by decide)).1 (by decide)).2⟩,
   ⟨by decide,
    ((C7_probe_drives_health hcDefault instFresh (.ok 500) 7 (by decide)).2 (by decide)).1,
    ((C7_probe_drives_health hcDefault instFresh (.ok 500) 7 (by decide)).2 (by decide)).2⟩⟩

/-- C9: for any positive threshold, after the probe step of a single
`check_instance_health` call the instance is either already Unhealthy or
has `consecutive_failures = 0`, so the threshold-escalation branch never
fires: the call returns the probe step's result unchanged and increments
`consecutive_failures` by at most one. -/
theorem C9_escalation_branch_unreachable (hc : HealthChecker) (inst : ServiceInstance)
    (probe : ProbeResult) (now : Nat) (hth : 1 ≤ hc.unhealthy_threshold) :
    ((probeStep inst probe now).health_status = .unhealthy ∨
     (probeStep inst probe now).consecutive_failures = 0) ∧
    escalationTriggered hc (probeStep inst probe now) = false ∧
    hc.check_instance_health inst probe now = probeStep inst probe now ∧
    (hc.check_instance_health inst probe now).consecutive_failures ≤
      inst.consecutive_failures + 1 := by
  have hnot : ¬ hc.unhealthy_threshold ≤ 0 := by omega
  have hsplit : (probeStep inst probe now).health_status = .unhealthy ∨
      probeStep inst probe now = inst.mark_healthy now := by
    cases probe with
    | ok status =>
      rcases eq_or_ne status 200 with h200 | h200
      · exact Or.inr (by simp [probeStep, h200])
      · exact Or.inl (by simp [probeStep, h200, ServiceInstance.mark_unhealthy])
    | timedOut => exact Or.inl (by simp [probeStep, ServiceInstance.mark_unhealthy])
    | failed => exact Or.inl (by simp [probeStep, ServiceInstance.mark_unhealthy])
  have hcf : (probeStep inst probe now).consecutive_failures ≤
      inst.consecutive_failures + 1 := by
    cases probe with
    | ok status =>
      rcases eq_or_ne status 200 with h200 | h200
      · simp [probeStep, h200, ServiceInstance.mark_healthy]
      · simp [probeStep, h200, ServiceInstance.mark_unhealthy]
    | timedOut => simp [probeStep, ServiceInstance.mark_unhealthy]
    | failed => simp [probeStep, ServiceInstance.mark_unhealthy]
  rcases hsplit with hunh | hok
  · have htrig : escalationTriggered hc (probeStep inst probe now) = false := by
      simp [escalationTriggered, hunh]
    have heq : hc.check_instance_health inst probe now = probeStep inst probe now := by
      rw [HealthChecker.check_instance_health]
      split
      · rw [if_neg (by simp [hunh])]
      · rfl
    exact ⟨Or.inl hunh, htrig, heq, heq ▸ hcf⟩
  · have hzero : (probeStep inst probe now).consecutive_failures = 0 := by
      rw [hok]; rfl
    have htrig : escalationTriggered hc (probeStep inst probe now) = false := by
      simp [escalationTriggered, hzero, hnot]
    have heq : hc.check_instance_health inst probe now = probeStep inst probe now := by
      rw [HealthChecker.check_instance_health, if_neg (by rw [hzero]; exact hnot)]
    exact ⟨Or.inr hzero, htrig, heq, heq ▸ hcf⟩

/-- Witness for C9 at the default threshold with a timed-out probe. -/
theorem C9_escalation_branch_unreachable_witness :
    1 ≤ hcDefault.unhealthy_threshold ∧
    escalationTriggered hcDefault (probeStep instFresh .timedOut 7) = false ∧
    hcDefault.check_instance_health instFresh .timedOut 7 = probeStep instFresh .timedOut 7 :=
  ⟨by decide,
   (C9_escalation_branch_unreachable hcDefault instFresh .timedOut 7 (by decide)).2.1,
   (C9_escalation_branch_unreachable hcDefault instFresh .timedOut 7 (by decide)).2.2.1⟩

/-- The `n`-th of `N` consecutive round-robin selections on a stable
non-empty list, starting from cursor `i`, is `l[(i + n) % len]`. -/
theorem rr_selections_eq {α : Type} (l : List α) (hne : l.isEmpty = false) :
    ∀ (N i : Nat), (RoundRobinAlgorithm.mk i).selections l N =
      (List.range N).map (fun k => l[(i + k) % l.length]?) := by
  intro N
  induction N with
  | zero => intro i; rfl
  | succ n ih =>
    intro i
    have hsel : (RoundRobinAlgorithm.mk i).select_instance l =
        (l[i % l.length]?, ⟨i + 1⟩) := by
      simp [RoundRobinAlgorithm.select_instance, hne]
    simp only [RoundRobinAlgorithm.selections, hsel]
    rw [List.range_succ_eq_map, List.map_cons, List.map_map]
    congr 1
    rw [ih (i + 1)]
    apply List.map_congr_left
    intro a _
    simp only [Function.comp_apply, Nat.succ_eq_add_one]
    rw [show i + (a + 1) = i + 1 + a by omega]

/-- Counting hits of a fixed residue class along a window of `N`
consecutive cursor values: each list position is hit `⌊N/L⌋` or `⌈N/L⌉`
times. -/
theorem range_countP_residue (L i j N : Nat) (hL : 0 < L) (hj : j < L) :
    (List.range N).countP (fun k => decide ((i + k) % L = j)) = N / L ∨
    (List.range N).countP (fun k => decide ((i + k) % L = j)) = (N + L - 1) / L := by
  have hiL : i % L < L := Nat.mod_lt i hL
  have hzero : (i + (L - i % L)) % L = 0 := by
    have hbi : i % L ≤ i := Nat.mod_le i L
    have h1 : i + (L - i % L) = (i - i % L) + L := by omega
    rw [h1, Nat.add_mod_right]
    have h2 : i - i % L = L * (i / L) := by
      have := Nat.div_add_mod i L
      omega
    rw [h2]
    exact Nat.mul_mod_right L (i / L)
  have hzero' : i + (L - i % L) ≡ 0 [MOD L] := by
    rw [Nat.ModEq, Nat.zero_mod, hzero]
  have hJi : (j + (L - i % L)) % L + i ≡ j [MOD L] := by
    have h3 : (j + (L - i % L)) + i = j + (i + (L - i % L)) := by ring
    calc (j + (L - i % L)) % L + i
        ≡ (j + (L - i % L)) + i [MOD L] := Nat.ModEq.add_right i (Nat.mod_modEq _ L)
      _ = j + (i + (L - i % L)) := h3
      _ ≡ j + 0 [MOD L] := Nat.ModEq.add_left j hzero'
      _ = j := Nat.add_zero j
  have hiff : ∀ k : Nat, ((i + k) % L = j) ↔ (k ≡ (j + (L - i % L)) % L [MOD L]) := by
    intro k
    constructor
    · intro h
      have hm : i + k ≡ j [MOD L] := by
        rw [Nat.ModEq, Nat.mod_eq_of_lt hj]
        exact h
      have hki : k + i ≡ (j + (L - i % L)) % L + i [MOD L] := by
        rw [Nat.add_comm k i]
        exact hm.trans hJi.symm
      exact Nat.ModEq.add_right_cancel' i hki
    · intro h
      have hki : k + i ≡ (j + (L - i % L)) % L + i [MOD L] := Nat.ModEq.add_right i h
      have hm : i + k ≡ j [MOD L] := by
        rw [Nat.add_comm i k]
        exact hki.trans hJi
      rw [Nat.ModEq, Nat.mod_eq_of_lt hj] at hm
      exact hm
  have hcount : (List.range N).countP (fun k => decide ((i + k) % L = j)) =
      Nat.count (fun k => k ≡ (j + (L - i % L)) % L [MOD L]) N := by
    unfold Nat.count
    apply List.countP_congr
    intro x _
    simp only [decide_eq_true_eq]
    exact hiff x
  rw [hcount, Nat.count_modEq_card N hL ((j + (L - i % L)) % L)]
  by_cases hlt : (j + (L - i % L)) % L % L < N % L
  · right
    rw [if_pos hlt]
    have h5 := Nat.div_add_mod N L
    have hNL : N % L < L := Nat.mod_lt N hL
    have hmul : L * (N / L + 1) = L * (N / L) + L := by ring
    have hform : N + L - 1 = L * (N / L + 1) + (N % L - 1) := by omega
    rw [hform, Nat.mul_add_div hL]
    have hsmall : (N % L - 1) / L = 0 := Nat.div_eq_of_lt (by omega)
    rw [hsmall]
  · left
    rw [if_neg hlt]
    rfl

/-- C3: on a stable non-empty duplicate-free list, starting from any
cursor value `i`, the sequence of `N` consecutive round-robin selections
is the rotation of the list by `i mod len`, repeated cyclically; and each
element is returned either `⌊N/len⌋` or `⌈N/len⌉ = (N+len-1)/len` times. -/
theorem C3_round_robin_fairness_and_rotation {α : Type} [DecidableEq α]
    (l : List α) (i N j : Nat) (hne : l ≠ []) (hnd : l.Nodup) (hj : j < l.length) :
    (RoundRobinAlgorithm.mk i).selections l N =
      (List.range N).map (fun k => (l.rotate (i % l.length))[k % l.length]?) ∧
    (((RoundRobinAlgorithm.mk i).selections l N).count (some l[j]) = N / l.length ∨
     ((RoundRobinAlgorithm.mk i).selections l N).count (some l[j]) =
       (N + l.length - 1) / l.length) := by
  have hne' : l.isEmpty = false := by
    cases l with
    | nil => exact absurd rfl hne
    | cons a t => rfl
  have hL : 0 < l.length := List.length_pos.mpr hne
  have hsel := rr_selections_eq l hne' N i
  constructor
  · rw [hsel]
    apply List.map_congr_left
    intro k _
    rw [List.getElem?_rotate (Nat.mod_lt k hL)]
    congr 1
    conv_lhs => rw [Nat.add_comm i k, Nat.add_mod]
  · rw [hsel]
    have hc : ((List.range N).map (fun k => l[(i + k) % l.length]?)).count (some l[j]) =
        (List.range N).countP (fun k => decide ((i + k) % l.length = j)) := by
      rw [List.count, List.countP_map]
      apply List.countP_congr
      intro k _
      simp only [Function.comp_apply, beq_iff_eq, decide_eq_true_eq]
      rw [List.getElem?_eq_getElem (Nat.mod_lt _ hL)]
      simp only [Option.some.injEq]
      exact hnd.getElem_inj_iff
    rw [hc]
    exact range_countP_residue l.length i j N hL hj

/-- Witness for C3 on `[10, 20, 30]` from cursor 5 with 7 selections. -/
theorem C3_round_robin_fairness_and_rotation_witness :
    (([10, 20, 30] : List Nat) ≠ [] ∧ ([10, 20, 30] : List Nat).Nodup ∧
      1 < ([10, 20, 30] : List Nat).length) ∧
    ((RoundRobinAlgorithm.mk 5).selections ([10, 20, 30] : List Nat) 7 =
       (List.range 7).map
         (fun k => (([10, 20, 30] : List Nat).rotate
             (5 % ([10, 20, 30] : List Nat).length))[k % ([10, 20, 30] : List Nat).length]?) ∧
     (((RoundRobinAlgorithm.mk 5).selections ([10, 20, 30] : List Nat) 7).count
          (some ([10, 20, 30] : List Nat)[1]) = 7 / ([10, 20, 30] : List Nat).length ∨
      ((RoundRobinAlgorithm.mk 5).selections ([10, 20, 30] : List Nat) 7).count
          (some ([10, 20, 30] : List Nat)[1]) =
        (7 + ([10, 20, 30] : List Nat).length - 1) / ([10, 20, 30] : List Nat).length)) :=
  ⟨⟨by decide, by decide, by decide⟩,
   C3_round_robin_fairness_and_rotation [10, 20, 30] 5 7 1 (by decide) (by decide) (by decide)⟩

/-- Any event the loop body produces for an entry `q` is attributed to
`q`'s instance name. -/
theorem qualifyingEvent_from_name (backups : List (String × ServiceInstance)) (now : Nat)
    (q : String × ServiceInstance) (e : FailoverEvent)
    (h : qualifyingEvent backups now q = some e) : e.from_name = q.2.name := by
  unfold qualifyingEvent at h
  split at h
  · exact absurd h (by simp)
  · revert h
    split
    · split
      · intro h
        cases h
        rfl
      · intro h; exact absurd h (by simp)
    · intro h; exact absurd h (by simp)

/-- Registries with no entry named `x` contribute no event for `x`. -/
theorem failoverEvents_countP_eq_zero (backups : List (String × ServiceInstance))
    (now : Nat) (x : String) :
    ∀ primaries : List (String × ServiceInstance),
    (∀ q ∈ primaries, q.2.name ≠ x) →
    (failoverEvents primaries backups now).countP
      (fun e => decide (e.type = .failover ∧ e.from_name = x)) = 0 := by
  intro primaries
  induction primaries with
  | nil => intro _; rfl
  | cons q rest ih =>
    intro hall
    rw [failoverEvents, List.filterMap_cons]
    rcases hq : qualifyingEvent backups now q with _ | e
    · exact ih (fun q' hq' => hall q' (List.mem_cons_of_mem q hq'))
    · rw [List.countP_cons]
      have hname : e.from_name = q.2.name := qualifyingEvent_from_name backups now q e hq
      have hfalse : (decide (e.type = EventType.failover ∧ e.from_name = x)) = false := by
        apply decide_eq_false
        intro hcontra
        exact hall q (List.mem_cons_self q rest) (hname ▸ hcontra.2)
      rw [hfalse]
      simp only [Bool.false_eq_true, if_false, Nat.add_zero]
      exact ih (fun q' hq' => hall q' (List.mem_cons_of_mem q hq'))

/-- A registry with unique instance names in which `p` is an unhealthy
primary with a healthy registered backup contributes exactly one Failover
event for `p`. -/
theorem failoverEvents_countP_eq_one (backups : List (String × ServiceInstance))
    (now : Nat) (p : String × ServiceInstance) (b : ServiceInstance)
    (hunh : p.2.is_healthy = false) (hb : backups.lookup p.1 = some b)
    (hbh : b.is_healthy = true) :
    ∀ primaries : List (String × ServiceInstance), p ∈ primaries →
    (primaries.map (fun q => q.2.name)).Nodup →
    (failoverEvents primaries backups now).countP
      (fun e => decide (e.type = .failover ∧ e.from_name = p.2.name)) = 1 := by
  intro primaries
  induction primaries with
  | nil => intro hmem; cases hmem
  | cons q rest ih =>
    intro hmem hnd
    rw [List.map_cons, List.nodup_cons] at hnd
    rcases List.mem_cons.mp hmem with heq | hmem'
    · rw [failoverEvents, List.filterMap_cons]
      have hq : qualifyingEvent backups now q = some (failoverEvent p.2 b now) := by
        rw [← heq]
        simp [qualifyingEvent, hunh, hb, hbh]
      rw [hq, List.countP_cons]
      have hone : (decide (((failoverEvent p.2 b now).type = EventType.failover) ∧
          (failoverEvent p.2 b now).from_name = p.2.name) : Bool) = true := by
        simp [failoverEvent]
      rw [hone]
      have hzero := failoverEvents_countP_eq_zero backups now p.2.name rest
        (fun q' hq' hcontra => (heq ▸ hnd.1)
          (hcontra ▸ List.mem_map_of_mem (fun r : String × ServiceInstance => r.2.name) hq'))
      rw [failoverEvents] at hzero
      rw [hzero]
      simp
    · have hne : q.2.name ≠ p.2.name := by
        intro hcontra
        exact hnd.1
          (hcontra ▸ List.mem_map_of_mem (fun r : String × ServiceInstance => r.2.name) hmem')
      rw [failoverEvents, List.filterMap_cons]
      rcases hq : qualifyingEvent backups now q with _ | e
      · exact ih hmem' hnd.2
      · rw [List.countP_cons]
        have hname : e.from_name = q.2.name := qualifyingEvent_from_name backups now q e hq
        have hfalse : (decide (e.type = EventType.failover ∧ e.from_name = p.2.name)) =
            false := by
          apply decide_eq_false
          intro hcontra
          exact hne (hname ▸ hcontra.2)
        rw [hfalse]
        simp only [Bool.false_eq_true, if_false, Nat.add_zero]
        exact ih hmem' hnd.2

/-- C4 counterexample: with one unhealthy primary whose backup is healthy,
two `check_and_failover` calls with health unchanged in between append two
Failover events for that primary — the second call duplicates the first's
event, contradicting the claim that repeated checks do not duplicate. -/
theorem C4_counterexample_duplicate_events :
    (fmScenario.check_and_failover 10).primary_instances = fmScenario.primary_instances ∧
    (fmScenario.check_and_failover 10).backup_instances = fmScenario.backup_instances ∧
    failoverEventCount "primary" (fmScenario.check_and_failover 10) = 1 ∧
    failoverEventCount "primary"
      ((fmScenario.check_and_failover 10).check_and_failover 20) = 2 ∧
    ¬ failoverEventCount "primary"
      ((fmScenario.check_and_failover 10).check_and_failover 20) = 1 := by
  decide

/-- C4 amended: for every registered primary that is not healthy and has a
healthy registered backup (names unique in the registry), each
`check_and_failover` call appends exactly one Failover event for that
primary — so `n` repeated calls while the health state is unchanged append
`n` events (one per call; duplicates do accumulate across calls). -/
theorem C4_amended_one_event_per_check (m : FailoverManager) (now now2 : Nat)
    (p : String × ServiceInstance) (b : ServiceInstance)
    (hmem : p ∈ m.primary_instances)
    (hnd : (m.primary_instances.map (fun q => q.2.name)).Nodup)
    (hunh : p.2.is_healthy = false)
    (hb : m.backup_instances.lookup p.1 = some b) (hbh : b.is_healthy = true) :
    failoverEventCount p.2.name (m.check_and_failover now) =
      failoverEventCount p.2.name m + 1 ∧
    failoverEventCount p.2.name ((m.check_and_failover now).check_and_failover now2) =
      failoverEventCount p.2.name m + 2 := by
  have hstep : ∀ t (m' : FailoverManager), p ∈ m'.primary_instances →
      (m'.primary_instances.map (fun q => q.2.name)).Nodup →
      m'.backup_instances.lookup p.1 = some b →
      failoverEventCount p.2.name (m'.check_and_failover t) =
        failoverEventCount p.2.name m' + 1 := by
    intro t m' hmem' hnd' hb'
    rw [failoverEventCount, FailoverManager.check_and_failover, List.countP_append]
    rw [failoverEvents_countP_eq_one m'.backup_instances t p b hunh hb' hbh
      m'.primary_instances hmem' hnd']
    rfl
  refine ⟨hstep now m hmem hnd hb, ?_⟩
  rw [hstep now2 (m.check_and_failover now) hmem hnd hb, hstep now m hmem hnd hb]

/-- Witness for the amended C4 on the concrete scenario. -/
theorem C4_amended_one_event_per_check_witness :
    (("primary",
      (ServiceInstance.init "primary" "http://localhost:5001" 1 0).mark_unhealthy 5) ∈
        fmScenario.primary_instances ∧
     (fmScenario.primary_instances.map (fun q => q.2.name)).Nodup ∧
     ((ServiceInstance.init "primary" "http://localhost:5001" 1 0).mark_unhealthy
        5).is_healthy = false ∧
     fmScenario.backup_instances.lookup "primary" =
       some ((ServiceInstance.init "backup" "http://localhost:5002" 1 0).mark_healthy 5) ∧
     ((ServiceInstance.init "backup" "http://localhost:5002" 1 0).mark_healthy
        5).is_healthy = true) ∧
    failoverEventCount "primary" (fmScenario.check_and_failover 10) =
      failoverEventCount "primary" fmScenario + 1 ∧
    failoverEventCount "primary"
        ((fmScenario.check_and_failover 10).check_and_failover 20) =
      failoverEventCount "primary" fmScenario + 2 :=
  ⟨⟨by decide, by decide, by decide, by decide, by decide⟩,
   C4_amended_one_event_per_check fmScenario 10 20
     ("primary", (ServiceInstance.init "primary" "http://localhost:5001" 1 0).mark_unhealthy 5)
     ((ServiceInstance.init "backup" "http://localhost:5002" 1 0).mark_healthy 5)
     (by decide) (by decide) (by decide) (by decide) (by decide)⟩

end LLB
